import Mathlib

/-!
Verification development for the facil.io in-process pub/sub core
(`src/lib/facil/services/pubsub.c`).

The development shallowly embeds the C source:

* the binary glob matcher `pubsub_glob_match` (pubsub.c lines 520-613) is
  embedded as a total function over byte lists; the C pointer/length pairs
  `(data, data_len)` and `(pattern, pat_len)` are represented by the remaining
  suffixes of the two buffers (the pointer and the length counter move in
  lockstep in every branch of the source, so a suffix carries exactly the same
  information); an attempted read past the end of a buffer yields the explicit
  result `GRes.oob` instead of C undefined behaviour, and the loop carries
  explicit fuel, `GRes.fuelOut` marking exhaustion (never reached at the
  inputs studied here);

* the subscription registry, engine dispatch and delivery protocol
  (pubsub.c lines 57-513) are embedded as pure state-passing functions over an
  explicit `PState`; heap pointers become indices into per-type heaps, the
  external collaborators (hash map, fiobj values, deferred scheduler) are
  modelled from their contracts in the spec, and fatal/undefined executions
  are surfaced as `Except Fault` errors.
-/

/- ***************************************************************************
Glob matcher (pubsub.c lines 520-613)
*************************************************************************** -/

/-- Result of running the embedded glob matcher: `matched` is C `return 1`,
`nomatch` is C `return 0`, `oob` marks a read outside either buffer
(undefined behaviour in the C source), `fuelOut` marks fuel exhaustion of the
embedding (never reached on the inputs considered in this file). -/
inductive GRes
  | matched
  | nomatch
  | oob
  | fuelOut
deriving DecidableEq, Repr

/-- One pass of the character-class do-while loop of pubsub.c lines 573-587.
`c` is the data byte being matched, `a` the class byte consumed just before
(the C variable `a`), `macc` the accumulated `match` flag, and the list is the
pattern suffix at the C pointer `cls`.  Returns the final `match` flag and the
pattern suffix just after the closing `]`, or `none` when the C code would
read past the end of the pattern. -/
def classScan (c : Nat) : Nat → Bool → List Nat → Option (Bool × List Nat)
  | _, _, [] => none
  | a, macc, [x] =>
    -- a one-byte suffix: either `cls[1]` (x = '-') or the next `*cls++` after
    -- consuming x (x neither '-' nor ']') is read out of bounds
    if x = 45 then none
    else
      let macc2 := macc || (decide (a ≤ c) && decide (c ≤ a))
      if x = 93 then some (macc2, []) else none
  | a, macc, x :: y :: rest2 =>
    if x = 45 ∧ y ≠ 93 then
      -- range span a-y (normalized when a > y), then read the next `a`
      let lo := if a > y then y else a
      let hi := if a > y then a else y
      let macc2 := macc || (decide (lo ≤ c) && decide (c ≤ hi))
      match rest2 with
      | [] => none
      | z :: rest3 =>
        if z = 93 then some (macc2, rest3) else classScan c z macc2 rest3
    else
      -- single-byte span a, then read the next `a` (the byte x itself)
      let macc2 := macc || (decide (a ≤ c) && decide (c ≤ a))
      if x = 93 then some (macc2, y :: rest2) else classScan c x macc2 (y :: rest2)

/-- One-step continuation of the `backtrack:` label of pubsub.c lines 602-609. -/
inductive GStep
  | ret (r : GRes)
  | cont (data pat : List Nat) (back : Option (List Nat × List Nat))
deriving DecidableEq, Repr

/-- The `backtrack:` label (pubsub.c lines 602-609): with no pending `*` the
match fails; otherwise resume at the saved pattern position one byte further
into the data.  A saved empty data suffix would make `--back_str_len`
underflow its `size_t` and the next iteration read past the data buffer,
hence `ret .oob` (unreachable from the saved states the loop creates). -/
def globBacktrack : Option (List Nat × List Nat) → GStep
  | none => .ret .nomatch
  | some (_, []) => .ret .oob
  | some (bp, _ :: bst) => .cont bst bp (some (bp, bst))

/-- The main matching loop of pubsub.c lines 544-612.  `data` and `pat` are
the unread suffixes of the two buffers, `back` the pending backtrack point
(saved pattern suffix, saved data suffix).  The loop guard `while (data_len)`
and the final `return !data_len && !pat_len` are the first match; `fuel`
strictly decreases on every iteration of the C loop. -/
def globLoop (data pat : List Nat) (back : Option (List Nat × List Nat))
    (fuel : Nat) : GRes :=
  match data with
  | [] => if pat.isEmpty then .matched else .nomatch
  | c :: dtail =>
    match fuel with
    | 0 => .fuelOut
    | fuel + 1 =>
      match pat with
      | [] => .oob
      | d :: ptail =>
        if d = 63 then
          -- case '?': wildcard, anything goes
          globLoop dtail ptail back fuel
        else if d = 42 then
          -- case '*': any-length wildcard
          if ptail.isEmpty then .matched
          else globLoop (c :: dtail) ptail (some (ptail, c :: dtail)) fuel
        else if d = 91 then
          -- case '[': character class
          match ptail with
          | [] => .oob
          | e :: ptail2 =>
            match (if e = 94 then ptail2 else e :: ptail2) with
            | [] => .oob
            | a :: clsTail =>
              match classScan c a false clsTail with
              | none => .oob
              | some (macc, rest) =>
                if macc = decide (e = 94) then
                  match globBacktrack back with
                  | .ret r => r
                  | .cont data2 pat2 back2 => globLoop data2 pat2 back2 fuel
                else globLoop dtail rest back fuel
        else if d = 92 then
          -- case '\\': match the next pattern byte literally
          match ptail with
          | [] => .oob
          | d2 :: ptail2 =>
            if c = d2 then globLoop dtail ptail2 back fuel
            else
              match globBacktrack back with
              | .ret r => r
              | .cont data2 pat2 back2 => globLoop data2 pat2 back2 fuel
        else
          -- default: literal character
          if c = d then globLoop dtail ptail back fuel
          else
            match globBacktrack back with
            | .ret r => r
            | .cont data2 pat2 back2 => globLoop data2 pat2 back2 fuel

/-- Fuel budget for `globLoop`; generous for every input considered here. -/
def globFuel (data pat : List Nat) : Nat :=
  data.length * (data.length + pat.length + 2) + pat.length + 2

/-- The glob matcher `pubsub_glob_match(data, data_len, pattern, pat_len)`
of pubsub.c lines 520-613, on byte lists. -/
def pubsub_glob_match (data pat : List Nat) : GRes :=
  globLoop data pat none (globFuel data pat)

/- ***************************************************************************
Registry data model (pubsub.c lines 29-87) and external collaborators
*************************************************************************** -/

/-- Channel names and message bodies as raw byte strings (the byte view that
`fiobj_obj2cstr` extracts from a fiobj value). -/
abbrev Bytes := List Nat

/-- 2^64: all pointer/hash arithmetic in the source is on `uint64_t`/`size_t`. -/
def M64 : Nat := 18446744073709551616

/-- A heap pointer of the model: the registry hash maps store untyped `void *`
values, so a stored pointer keeps only its own tag; dereferencing a pointer at
the wrong type is surfaced as a fault. -/
inductive HVal
  | clientPtr (i : Nat)
  | channelPtr (i : Nat)
deriving DecidableEq, Repr

/-- One entry of the external hash map: the caller-supplied 64-bit hash, the
deep-comparable key object and the stored value (`none` models the NULL value
that `fio_hash_insert(…, NULL)` leaves behind as a removal). -/
structure HMapEntry where
  hash : Nat
  key : Bytes
  val : Option HVal
deriving DecidableEq, Repr

abbrev HMap := List HMapEntry

/-- Modelled from the spec: the external hash-map collaborator's
`find(hash, key) -> value|none` (spec section 6) — the entry must carry the same
caller-supplied hash (the map locates entries by their hash) and a key that is
deep-equal to the query key. -/
def hmFind (m : HMap) (h : Nat) (k : Bytes) : Option HVal :=
  match m with
  | [] => none
  | e :: rest => if e.hash = h ∧ e.key = k then e.val else hmFind rest h k

/-- Modelled from the spec: the external hash-map collaborator's
`insert(hash, key, value)` (spec section 6) — overwrites the entry with the same
hash and deep-equal key, returning the value it displaced (`none` when the
entry was absent); iteration order is insertion order. -/
def hmInsert (m : HMap) (h : Nat) (k : Bytes) (v : Option HVal) :
    HMap × Option HVal :=
  match m with
  | [] => ([{ hash := h, key := k, val := v }], none)
  | e :: rest =>
    if e.hash = h ∧ e.key = k then ({ e with val := v } :: rest, e.val)
    else
      let (m2, old) := hmInsert rest h k v
      (e :: m2, old)

/-- An engine pointer: the built-in process and cluster engines are distinct
constants (`PUBSUB_PROCESS_ENGINE`, `PUBSUB_CLUSTER_ENGINE`, pubsub.c lines
447-513), any other registered engine is an external one. -/
inductive EngineRef
  | process
  | cluster
  | ext (n : Nat)
deriving DecidableEq, Repr

/-- Externally observable calls made synchronously by the core. -/
inductive Event
  | engineSubscribe (e : EngineRef) (name : Bytes) (usePattern : Bool)
  | engineUnsubscribe (e : EngineRef) (name : Bytes) (usePattern : Bool)
  | unsubCallback (cb : Nat) (u1 u2 : Nat)
  | errPrint
deriving DecidableEq, Repr

/-- A unit of work handed to the external deferred-task scheduler (`defer`). -/
inductive PTask
  | deliver (cl : Nat) (wrapper : Nat)
  | deferredUnsub (cl : Nat)
deriving DecidableEq, Repr

/-- `client_s` (pubsub.c lines 57-72): callback and udata pointers are kept as
their 64-bit bit patterns (0 is NULL), `parent` is the owning channel's heap
index, `freed` records that `free(cl)` ran. -/
structure ClientObj where
  ref : Nat
  parent : Option Nat
  on_message : Nat
  on_unsubscribe : Nat
  udata1 : Nat
  udata2 : Nat
  freed : Bool
deriving DecidableEq, Repr

/-- `channel_s` (pubsub.c lines 74-81): `clients` is the embedded membership
list in insertion order. -/
structure ChannelObj where
  name : Bytes
  use_pattern : Bool
  clients : List Nat
  freed : Bool
deriving DecidableEq, Repr

/-- `msg_wrapper_s` (pubsub.c lines 346-350) plus a `freed` flag recording
that `msg_wrapper_free` reached its free branch. -/
structure MsgWrapper where
  ref : Nat
  channel : Bytes
  msg : Bytes
  freed : Bool
deriving DecidableEq, Repr

/-- The four registries (pubsub.c lines 83-87), the default-engine slot, the
typed heaps standing in for malloc'd objects, the deferred-task queue and the
trace of synchronous external calls. -/
structure PState where
  channels : HMap
  patterns : HMap
  clients : HMap
  engines : List (EngineRef × Option EngineRef)
  defaultEngine : Option EngineRef
  clientHeap : List ClientObj
  channelHeap : List ChannelObj
  wrapperHeap : List MsgWrapper
  tasks : List PTask
  events : List Event
deriving DecidableEq, Repr

/-- Fatal or undefined executions of the embedded code. -/
inductive Fault
  | corruptionAbort
  | nullDeref
  | typeConfusion
  | oobRead
deriving DecidableEq, Repr

def initState : PState :=
  { channels := [], patterns := [], clients := [], engines := [],
    defaultEngine := none, clientHeap := [], channelHeap := [],
    wrapperHeap := [], tasks := [], events := [] }

/- ***************************************************************************
Channel and client management (pubsub.c lines 89-223)
*************************************************************************** -/

/-- `client_compute_hash` (pubsub.c lines 113-121), verbatim on the 64-bit bit
patterns of the callback and udata pointers. -/
def client_compute_hash (om ou u1 u2 : Nat) : Nat :=
  ((((om * (Nat.xor (u1 % M64) 8317987319222330741)) % M64) / 32 |||
      ((ou * (Nat.xor (u1 % M64) 8317987319222330741)) <<< 47) % M64) ^^^
    Nat.xor (u2 % M64) 7237128888997146477) % M64

/-- Modelled from the spec: `fiobj_sym_id` of the fiobj collaborator — "a
stable content-derived identity/hash" of the value's bytes (spec section 6).
The concrete hash function is not part of src; any content-determined
function realises the contract, here a djb2-style fold. -/
def fiobj_sym_id (s : Bytes) : Nat :=
  s.foldl (fun h b => (h * 33 + b) % M64) 5381

/-- `client_test4free` (pubsub.c lines 98-104): atomically decrement the
reference count (`size_t` arithmetic) and free the client when it reaches 0. -/
def client_test4free (cl : ClientObj) : ClientObj :=
  let r := (cl.ref + (M64 - 1)) % M64
  if r ≠ 0 then { cl with ref := r } else { cl with ref := 0, freed := true }

/-- `pubsub_on_channel_create` / `pubsub_on_channel_destroy` (pubsub.c lines
302-320): walk the engines map in insertion order and call each engine's
subscribe/unsubscribe hook; an entry whose stored value is the NULL left
behind by `pubsub_engine_deregister` is dereferenced (`e->subscribe`), a NULL
dereference. -/
def notifyEngines (create : Bool) (name : Bytes) (up : Bool) :
    List (EngineRef × Option EngineRef) → Except Fault (List Event)
  | [] => .ok []
  | (_, none) :: _ => .error .nullDeref
  | (_, some e) :: rest =>
    (notifyEngines create name up rest).map
      (fun evs =>
        (if create then Event.engineSubscribe e name up
         else Event.engineUnsubscribe e name up) :: evs)

/-- `pubsub_client_new` (pubsub.c lines 123-172).  Faithfully preserved from
the source: the lookup for an existing channel (line 153) uses the key
`{hash = channel_hash, obj = name}`, but the insertion of a newly created
channel (lines 162-164) uses the key `{hash = client_hash, obj = name}` and
stores the CLIENT pointer `cl` as the value. -/
def pubsub_client_new (om ou u1 u2 : Nat) (chName : Option Bytes) (up : Bool)
    (s : PState) : Except Fault (Option HVal × PState) :=
  if om = 0 ∨ chName = none then
    -- lines 124-131: print the error, synchronously run on_unsubscribe if given
    .ok (none,
      { s with
        events := s.events ++
          (Event.errPrint ::
            (if ou ≠ 0 then [Event.unsubCallback ou u1 u2] else [])) })
  else
    match chName with
    | none => .ok (none, s)
    | some name =>
      let chash := client_compute_hash om ou u1 u2
      -- line 136: ignore if client exists
      match hmFind s.clients chash name with
      | some p => .ok (some p, s)
      | none =>
        let cid := s.clientHeap.length
        let cl0 : ClientObj :=
          { ref := 0, parent := none, on_message := om, on_unsubscribe := ou,
            udata1 := u1, udata2 := u2, freed := false }
        let clMap := (hmInsert s.clients chash name (some (HVal.clientPtr cid))).1
        let channelHash := fiobj_sym_id name
        let chMap := if up then s.patterns else s.channels
        match hmFind chMap channelHash name with
        | some (HVal.channelPtr chId) =>
          -- existing channel: append the client to its membership list
          match s.channelHeap[chId]? with
          | none => .error .nullDeref
          | some ch =>
            let cl1 := { cl0 with parent := some chId, ref := 1 }
            .ok (some (HVal.clientPtr cid),
              { s with
                clients := clMap,
                clientHeap := s.clientHeap ++ [cl1],
                channelHeap :=
                  s.channelHeap.set chId { ch with clients := ch.clients ++ [cid] } })
        | some (HVal.clientPtr _) =>
          -- the found void* is a client_s*, used as a channel_s*
          .error .typeConfusion
        | none =>
          let chId := s.channelHeap.length
          let ch0 : ChannelObj :=
            { name := name, use_pattern := up, clients := [cid], freed := false }
          -- lines 162-164 store cl under the client hash into the channel map
          let chMap2 := (hmInsert chMap chash name (some (HVal.clientPtr cid))).1
          match notifyEngines true name up s.engines with
          | .error f => .error f
          | .ok evs =>
            let cl1 := { cl0 with parent := some chId, ref := 1 }
            .ok (some (HVal.clientPtr cid),
              { s with
                clients := clMap,
                channels := if up then s.channels else chMap2,
                patterns := if up then chMap2 else s.patterns,
                clientHeap := s.clientHeap ++ [cl1],
                channelHeap := s.channelHeap ++ [ch0],
                events := s.events ++ evs })

/-- `pubsub_subscribe` (pubsub.c lines 235-242). -/
def pubsub_subscribe (chName : Option Bytes) (up : Bool) (om ou u1 u2 : Nat)
    (s : PState) : Except Fault (Option HVal × PState) :=
  pubsub_client_new om ou u1 u2 chName up s

/-- Lines 198-202 and 202 of `pubsub_client_destroy`: defer the unsubscribe
callback with a bumped reference count if one is set, then
`client_test4free`. -/
def destroyFinishClient (cid : Nat) (cl : ClientObj) (s : PState) : PState :=
  let bumped :=
    if cl.on_unsubscribe ≠ 0 then { cl with ref := (cl.ref + 1) % M64 } else cl
  let newTasks :=
    if cl.on_unsubscribe ≠ 0 then [PTask.deferredUnsub cid] else []
  { s with
    clientHeap := s.clientHeap.set cid (client_test4free bumped),
    tasks := s.tasks ++ newTasks }

/-- `pubsub_client_destroy` (pubsub.c lines 175-207): unlink the client from
its channel; if the channel became empty, remove it from its map by inserting
NULL and abort with "channel database corruption detected" when the displaced
value is not the channel itself (lines 188-194); then notify the engines and
release the references. -/
def pubsub_client_destroy (p : HVal) (s : PState) : Except Fault PState :=
  match p with
  | HVal.channelPtr _ => .error .typeConfusion
  | HVal.clientPtr cid =>
    match s.clientHeap[cid]? with
    | none => .error .nullDeref
    | some cl =>
      match cl.parent with
      | none => .ok s
      | some chId =>
        match s.channelHeap[chId]? with
        | none => .error .nullDeref
        | some ch =>
          let chMap := if ch.use_pattern then s.patterns else s.channels
          let channelHash := fiobj_sym_id ch.name
          let members := ch.clients.erase cid
          if members ≠ [] then
            .ok (destroyFinishClient cid cl
              { s with
                channelHeap := s.channelHeap.set chId { ch with clients := members } })
          else
            let (chMap2, old) := hmInsert chMap channelHash ch.name none
            if old ≠ some (HVal.channelPtr chId) then .error .corruptionAbort
            else
              match notifyEngines false ch.name ch.use_pattern s.engines with
              | .error f => .error f
              | .ok evs =>
                .ok (destroyFinishClient cid cl
                  { s with
                    channels := if ch.use_pattern then s.channels else chMap2,
                    patterns := if ch.use_pattern then chMap2 else s.patterns,
                    channelHeap :=
                      s.channelHeap.set chId
                        { ch with clients := members, freed := true },
                    events := s.events ++ evs })

/-- `pubsub_unsubscribe` (pubsub.c lines 270-275): -1 only for a NULL handle,
otherwise destroy the client and return 0. -/
def pubsub_unsubscribe (p : Option HVal) (s : PState) :
    Except Fault (Int × PState) :=
  match p with
  | none => .ok (-1, s)
  | some ptr => (pubsub_client_destroy ptr s).map (fun s2 => (0, s2))

/- ***************************************************************************
Engine handling (pubsub.c lines 322-340), publish (lines 283-296, 398-445)
and the delivery protocol (lines 352-380)
*************************************************************************** -/

/-- Insert into the engines map: the key is the engine pointer itself
(`.hash = (size_t)engine`, `.obj = fiobj_null()`, so keys compare by the
pointer alone); overwrite or append. -/
def engInsert : List (EngineRef × Option EngineRef) → EngineRef →
    Option EngineRef → List (EngineRef × Option EngineRef)
  | [], e, v => [(e, v)]
  | (k, w) :: rest, e, v =>
    if k = e then (k, v) :: rest else (k, w) :: engInsert rest e v

/-- `pubsub_engine_register` (pubsub.c lines 323-329). -/
def pubsub_engine_register (e : EngineRef) (s : PState) : PState :=
  { s with engines := engInsert s.engines e (some e) }

/-- `pubsub_engine_deregister` (pubsub.c lines 332-340): if the engine is the
current default, the default becomes the cluster engine; then the engine's
entry is overwritten with NULL. -/
def pubsub_engine_deregister (e : EngineRef) (s : PState) : PState :=
  { s with
    defaultEngine :=
      if s.defaultEngine = some e then some EngineRef.cluster else s.defaultEngine,
    engines := engInsert s.engines e none }

/-- The per-member fan-out of `pubsub_en_process_publish` (lines 415-420 and
430-435): for each client in the channel's membership list, increment the
wrapper's and the client's reference counts and defer one delivery task. -/
def deliverToChannel (members : List Nat) (wid : Nat) (w : MsgWrapper)
    (s : PState) : MsgWrapper × PState :=
  match members with
  | [] => (w, s)
  | cid :: rest =>
    let w2 := { w with ref := (w.ref + 1) % M64 }
    let heap2 :=
      match s.clientHeap[cid]? with
      | some cl => s.clientHeap.set cid { cl with ref := (cl.ref + 1) % M64 }
      | none => s.clientHeap
    deliverToChannel rest wid w2
      { s with clientHeap := heap2, tasks := s.tasks ++ [PTask.deliver cid wid] }

/-- Result of a `pubsub_publish` call: either the returned int, or a call
into an external engine's publish (out of scope, spec section 1). -/
inductive PubOutcome
  | ret (r : Int)
  | extCall (e : Nat)
deriving DecidableEq, Repr

/-- The pattern half of `pubsub_en_process_publish` (lines 424-437): walk the
patterns map in insertion order, cast each stored value to `channel_s *`
(`ch_->obj`), glob-match the published name against the channel's name and
fan out to its members.  A stored client pointer is used as a channel
(type confusion); a NULL value left by a removal is dereferenced. -/
def patternLoop (chBytes : Bytes) (wid : Nat) :
    List HMapEntry → MsgWrapper → PState → Int →
    Except Fault (MsgWrapper × PState × Int)
  | [], w, s, r => .ok (w, s, r)
  | e :: rest, w, s, r =>
    match e.val with
    | none => .error .nullDeref
    | some (HVal.clientPtr _) => .error .typeConfusion
    | some (HVal.channelPtr chId) =>
      match s.channelHeap[chId]? with
      | none => .error .nullDeref
      | some ch =>
        match pubsub_glob_match chBytes ch.name with
        | GRes.matched =>
          let (w2, s2) := deliverToChannel ch.clients wid w s
          patternLoop chBytes wid rest w2 s2 0
        | GRes.nomatch => patternLoop chBytes wid rest w s r
        | _ => .error .oobRead

/-- `pubsub_en_process_publish` (pubsub.c lines 398-445): allocate the message
wrapper with `ref = 1`, fan out to the exact-match channel (looked up under
the name's content hash) and to every matching pattern channel, then unlock
and return -1 unless some channel matched.  Faithfully to the source, the
function returns without releasing the wrapper reference it holds (there is
no `msg_wrapper_free` between lines 438 and 440). -/
def pubsub_en_process_publish (channel msg : Bytes) (s : PState) :
    Except Fault (PubOutcome × PState) :=
  let channelHash := fiobj_sym_id channel
  let wid := s.wrapperHeap.length
  let w0 : MsgWrapper := { ref := 1, channel := channel, msg := msg, freed := false }
  let direct : Except Fault (MsgWrapper × PState × Int) :=
    match hmFind s.channels channelHash channel with
    | none => .ok (w0, s, -1)
    | some (HVal.clientPtr _) => .error .typeConfusion
    | some (HVal.channelPtr chId) =>
      match s.channelHeap[chId]? with
      | none => .error .nullDeref
      | some ch =>
        let (w1, s1) := deliverToChannel ch.clients wid w0 s
        .ok (w1, s1, 0)
  match direct with
  | .error f => .error f
  | .ok (w1, s1, r1) =>
    match patternLoop channel wid s1.patterns w1 s1 r1 with
    | .error f => .error f
    | .ok (w2, s2, r2) =>
      .ok (PubOutcome.ret r2, { s2 with wrapperHeap := s2.wrapperHeap ++ [w2] })

/-- `pubsub_publish` (pubsub.c lines 283-296): fail on a missing channel or
message, else resolve the engine as explicit, then default, then cluster (a
non-null constant, so the fatal "engine pointer data corrupted" branch cannot
fire), and call its publish — the cluster engine's publish always returns -1
(lines 498-505). -/
def pubsub_publish (engine : Option EngineRef) (channel msg : Option Bytes)
    (s : PState) : Except Fault (PubOutcome × PState) :=
  match channel, msg with
  | some ch, some m =>
    let e1 := match engine with | some e => some e | none => s.defaultEngine
    let e2 := match e1 with | some e => e | none => EngineRef.cluster
    match e2 with
    | EngineRef.cluster => .ok (PubOutcome.ret (-1), s)
    | EngineRef.process => pubsub_en_process_publish ch m s
    | EngineRef.ext n => .ok (PubOutcome.extCall n, s)
  | _, _ => .ok (PubOutcome.ret (-1), s)

/-- `msg_wrapper_free` (pubsub.c lines 357-363): atomically decrement the
wrapper's reference count and free the wrapper (channel, message and the
wrapper itself) exactly when it reaches 0. -/
def msg_wrapper_free (m : MsgWrapper) : MsgWrapper :=
  let r := (m.ref + (M64 - 1)) % M64
  if r ≠ 0 then { m with ref := r } else { m with ref := 0, freed := true }

/-- The `pubsub_message_s` view that `pubsub_en_process_deferred_on_message`
builds for the subscriber's callback (pubsub.c lines 369-376). -/
structure MsgView where
  channel : Bytes
  message : Bytes
  subscription : Nat
  udata1 : Nat
  udata2 : Nat
deriving DecidableEq, Repr

/-- `pubsub_en_process_deferred_on_message` (pubsub.c lines 366-380): build
the callback argument — faithfully to line 375, the `udata2` field is filled
from `cl->udata1` — invoke `on_message`, then drop one wrapper reference and
one client reference. -/
def pubsub_en_process_deferred_on_message (clId : Nat) (cl : ClientObj)
    (m : MsgWrapper) : MsgView × MsgWrapper × ClientObj :=
  let arg : MsgView :=
    { channel := m.channel, message := m.msg, subscription := clId,
      udata1 := cl.udata1, udata2 := cl.udata1 }
  (arg, msg_wrapper_free m, client_test4free cl)

/-- The wrapper as allocated by `pubsub_en_process_publish` before any
fan-out (pubsub.c lines 406-407): `ref = 1`, duplicated channel and body. -/
def initWrapper (ch m : Bytes) : MsgWrapper :=
  { ref := 1, channel := ch, msg := m, freed := false }

/-- The wrapper-side effect of scheduling `n` delivery tasks: one
`spn_add(&m->ref, 1)` per matched subscriber (pubsub.c lines 417 and 432). -/
def scheduleN : MsgWrapper → Nat → MsgWrapper
  | w, 0 => w
  | w, n + 1 => scheduleN { w with ref := (w.ref + 1) % M64 } n

/-- The wrapper-side effect of `n` delivery tasks completing: each task ends
with one `msg_wrapper_free` (pubsub.c line 378). -/
def completeTasks : MsgWrapper → Nat → MsgWrapper
  | w, 0 => w
  | w, n + 1 => completeTasks (msg_wrapper_free w) n

/-- Unwrap a subscribe result, mapping a fault to a sentinel. -/
def exStep (x : Except Fault (Option HVal × PState)) : Option HVal × PState :=
  match x with
  | .ok y => y
  | .error _ => (none, initState)

/-- Unwrap a publish result, mapping a fault to a sentinel return of -2
(no execution path of the embedded publish returns -2). -/
def pubStep (x : Except Fault (PubOutcome × PState)) : PubOutcome × PState :=
  match x with
  | .ok y => y
  | .error _ => (PubOutcome.ret (-2), initState)

/-- The fault raised by an operation, if any. -/
def faultOf {α : Type} (x : Except Fault α) : Option Fault :=
  match x with
  | .ok _ => none
  | .error f => some f

/- ***************************************************************************
Concrete scenario objects shared by the theorems
*************************************************************************** -/

/-- A client with two distinguishable user-data slots, as
`pubsub_en_process_deferred_on_message` receives it. -/
def demoClient : ClientObj :=
  { ref := 2, parent := some 0, on_message := 1, on_unsubscribe := 0,
    udata1 := 11, udata2 := 22, freed := false }

/-- An otherwise-empty registry whose default-engine slot holds the process
engine. -/
def demoDefaultState : PState :=
  { initState with defaultEngine := some EngineRef.process }

/- ***************************************************************************
Helper lemmas about the glob matcher
*************************************************************************** -/

lemma globLoop_nil_data (pat : List Nat) (back : Option (List Nat × List Nat))
    (fuel : Nat) :
    globLoop [] pat back fuel =
      if pat.isEmpty then GRes.matched else GRes.nomatch := by
  simp [globLoop]

lemma globLoop_bs_single (a f : Nat) :
    globLoop [a] [92, 42] none (f + 2) =
      if a = 42 then GRes.matched else GRes.nomatch := by
  by_cases h : a = 42 <;> simp [globLoop, globBacktrack, h]

lemma globLoop_bs_two (a b : Nat) (t : List Nat) (f : Nat) :
    globLoop (a :: b :: t) [92, 42] none (f + 2) =
      if a = 42 then GRes.oob else GRes.nomatch := by
  by_cases h : a = 42 <;> simp [globLoop, globBacktrack, h]

/-- Against the pattern `\*` (a backslash escape followed by a star), the
matcher reports a match only on the one-byte data `*`. -/
lemma pubsub_glob_match_bs_only (d : List Nat) (hd : d ≠ [42]) :
    pubsub_glob_match d [92, 42] ≠ GRes.matched := by
  match d with
  | [] => simp [pubsub_glob_match, globLoop, globFuel]
  | [a] =>
    have ha : a ≠ 42 := by simpa using hd
    have h9 : globFuel [a] [92, 42] = 7 + 2 := rfl
    simp only [pubsub_glob_match, h9, globLoop_bs_single, ha, if_false]
    simp
  | a :: b :: t =>
    obtain ⟨f, hf⟩ : ∃ f, globFuel (a :: b :: t) [92, 42] = f + 2 :=
      ⟨globFuel (a :: b :: t) [92, 42] - 2, by simp [globFuel]⟩
    simp only [pubsub_glob_match, hf, globLoop_bs_two]
    by_cases h : a = 42 <;> simp [h]

/- ***************************************************************************
Claim theorems
*************************************************************************** -/

/-- C1: the claim states that after a subscription is successfully created on
an exact-match channel named C, publishing a non-null message to C through
the process engine returns success and enqueues one delivery task per member.
Evaluating the code at that exact input: the subscription on exact channel
"a" is created (handle `clientPtr 0`), yet the process-engine publish to "a"
returns -1 and enqueues no delivery task at all — because
`pubsub_client_new` (pubsub.c lines 162-164) inserted the new channel into
the channel map under the CLIENT identity hash with the CLIENT pointer as
value, while the publish lookup (lines 411-412) searches under the name's
content hash. -/
theorem claim_C1 :
    (exStep (pubsub_subscribe (some [97]) false 1 0 0 0 initState)).1 =
        some (HVal.clientPtr 0) ∧
      (pubStep (pubsub_publish (some EngineRef.process) (some [97]) (some [104])
          (exStep (pubsub_subscribe (some [97]) false 1 0 0 0 initState)).2)).1 =
        PubOutcome.ret (-1) ∧
      (pubStep (pubsub_publish (some EngineRef.process) (some [97]) (some [104])
          (exStep (pubsub_subscribe (some [97]) false 1 0 0 0 initState)).2)).2.tasks =
        [] := by
  decide

/-- C2: the claim states that unsubscribing any non-null handle succeeds,
removing the emptied channel from its collection with the removal yielding
that same channel object (not a corruption abort).  Evaluating the code at a
subscribe-then-unsubscribe run: the removal insert (pubsub.c lines 188-190)
searches the channel map under the name's content hash, but the channel was
stored under the client hash with the client pointer as value, so the insert
displaces nothing, the `test != ch` check at line 191 fires, and the process
aborts with "channel database corruption detected". -/
theorem claim_C2 :
    (exStep (pubsub_subscribe (some [97]) false 1 0 0 0 initState)).1 =
        some (HVal.clientPtr 0) ∧
      faultOf (pubsub_unsubscribe (some (HVal.clientPtr 0))
          (exStep (pubsub_subscribe (some [97]) false 1 0 0 0 initState)).2) =
        some Fault.corruptionAbort := by
  decide

/-- C3: the claim states that the shared message wrapper of a publish with N
matched subscribers is freed exactly once, when the Nth delivery task
completes, and is never left unfreed after all N tasks completed.  Evaluating
the wrapper's reference-count protocol as the code implements it: the wrapper
is allocated with `ref = 1` (pubsub.c lines 406-407), each scheduled delivery
adds one reference (lines 417 and 432), each completing task drops one
(line 378), and `pubsub_en_process_publish` returns without dropping its own
reference (lines 438-440) — so after all N tasks complete (shown for N = 1
and N = 3) the wrapper still holds `ref = 1` and is never freed. -/
theorem claim_C3 :
    (completeTasks (scheduleN (initWrapper [97] [104]) 1) 1).freed = false ∧
      (completeTasks (scheduleN (initWrapper [97] [104]) 1) 1).ref = 1 ∧
      (completeTasks (scheduleN (initWrapper [97] [104]) 3) 3).freed = false ∧
      (completeTasks (scheduleN (initWrapper [97] [104]) 3) 3).ref = 1 := by
  decide

/-- C4 (counterexample): the claim states that subscribing the same
callback/user-data pair to an exact-match channel and to a pattern channel
sharing the same name text yields two distinct subscriptions.  In the code
the dedup key is (client hash, channel name) with no pattern flag
(pubsub.c lines 133-141), so the second subscribe returns the very same
handle and leaves the whole registry state unchanged. -/
theorem claim_C4_counterexample :
    exStep (pubsub_subscribe (some [97]) true 1 0 0 0
        (exStep (pubsub_subscribe (some [97]) false 1 0 0 0 initState)).2) =
      exStep (pubsub_subscribe (some [97]) false 1 0 0 0 initState) := by
  decide

/-- C4 (amended): subscribe returns an already-existing handle (creating no
new registry entries) when a still-registered subscription exists with the
same channel NAME and identical callbacks/user-data — the pattern flag is not
part of the dedup key, so an exact-match and a pattern subscribe sharing the
same name text and callbacks return the SAME handle, while the same
callbacks/user-data on a different channel name yield a distinct
subscription. -/
theorem claim_C4_theorem (name1 name2 : Bytes) (fl1 fl2 fl3 : Bool)
    (om ou u1 u2 : Nat) (hom : om ≠ 0) (hne : name2 ≠ name1) :
    (exStep (pubsub_subscribe (some name1) fl1 om ou u1 u2 initState)).1 =
        some (HVal.clientPtr 0) ∧
      exStep (pubsub_subscribe (some name1) fl2 om ou u1 u2
          (exStep (pubsub_subscribe (some name1) fl1 om ou u1 u2 initState)).2) =
        exStep (pubsub_subscribe (some name1) fl1 om ou u1 u2 initState) ∧
      (exStep (pubsub_subscribe (some name2) fl3 om ou u1 u2
          (exStep (pubsub_subscribe (some name1) fl1 om ou u1 u2 initState)).2)).1 =
        some (HVal.clientPtr 1) ∧
      HVal.clientPtr 1 ≠ HVal.clientPtr 0 := by
  have hne2 : name1 ≠ name2 := Ne.symm hne
  cases fl1 <;> cases fl3 <;>
    simp [pubsub_subscribe, pubsub_client_new, exStep, initState, hmFind,
      hmInsert, notifyEngines, hom, hne, hne2]

/-- Witness for C4 at concrete inputs: names "a" and "b", an exact-match
first subscribe, a pattern second subscribe. -/
theorem claim_C4_witness :
    (exStep (pubsub_subscribe (some [97]) false 1 2 3 4 initState)).1 =
        some (HVal.clientPtr 0) ∧
      exStep (pubsub_subscribe (some [97]) true 1 2 3 4
          (exStep (pubsub_subscribe (some [97]) false 1 2 3 4 initState)).2) =
        exStep (pubsub_subscribe (some [97]) false 1 2 3 4 initState) ∧
      (exStep (pubsub_subscribe (some [98]) true 1 2 3 4
          (exStep (pubsub_subscribe (some [97]) false 1 2 3 4 initState)).2)).1 =
        some (HVal.clientPtr 1) ∧
      HVal.clientPtr 1 ≠ HVal.clientPtr 0 :=
  claim_C4_theorem [97] [98] false true true 1 2 3 4 (by decide) (by decide)

/-- C5: the claim states each delivery passes udata1 in the first slot and
udata2 in the second slot.  Evaluating
`pubsub_en_process_deferred_on_message` on a client with udata1 = 11 and
udata2 = 22: the callback argument carries channel, message, subscription
handle and udata1 correctly, but its udata2 slot holds 11 — the source fills
it from `cl->udata1` (pubsub.c line 375). -/
theorem claim_C5 :
    (pubsub_en_process_deferred_on_message 0 demoClient (initWrapper [97] [104])).1 =
        { channel := [97], message := [104], subscription := 0,
          udata1 := 11, udata2 := 11 } ∧
      demoClient.udata2 = 22 := by
  decide

/-- C6: the claim states that a pattern made of a prefix exactly matching the
data followed by a final `*` matches (the `*` matching zero bytes), in
particular "a*" matches "a" and "*" matches the empty data.  Evaluating the
code: the loop runs only `while (data_len)`, so a trailing `*` is never even
read once the data is exhausted and the final `return !data_len && !pat_len`
fails on the unconsumed pattern — "a*" vs "a" and "*" vs "" both report
no-match, while "a*" vs "ab" (where the `*` is reached) does match. -/
theorem claim_C6 :
    pubsub_glob_match [97] [97, 42] = GRes.nomatch ∧
      pubsub_glob_match [] [42] = GRes.nomatch ∧
      pubsub_glob_match [97, 98] [97, 42] = GRes.matched := by
  decide

/-- C7: the glob matcher satisfies all of the spec's enumerated cases:
"a*c" matches "abc" and "ac" but not "abd"; "a?c" matches "abc" but not
"ac"; "[a-c]x" matches "bx" but not "dx"; "[^a-c]x" matches "dx" but not
"bx"; and "\*" matches the single-byte data "*" and, for every other data,
does not report a match. -/
theorem claim_C7 :
    pubsub_glob_match [97, 98, 99] [97, 42, 99] = GRes.matched ∧
      pubsub_glob_match [97, 99] [97, 42, 99] = GRes.matched ∧
      pubsub_glob_match [97, 98, 100] [97, 42, 99] = GRes.nomatch ∧
      pubsub_glob_match [97, 98, 99] [97, 63, 99] = GRes.matched ∧
      pubsub_glob_match [97, 99] [97, 63, 99] = GRes.nomatch ∧
      pubsub_glob_match [98, 120] [91, 97, 45, 99, 93, 120] = GRes.matched ∧
      pubsub_glob_match [100, 120] [91, 97, 45, 99, 93, 120] = GRes.nomatch ∧
      pubsub_glob_match [100, 120] [91, 94, 97, 45, 99, 93, 120] = GRes.matched ∧
      pubsub_glob_match [98, 120] [91, 94, 97, 45, 99, 93, 120] = GRes.nomatch ∧
      pubsub_glob_match [42] [92, 42] = GRes.matched ∧
      (∀ d : List Nat, d ≠ [42] → pubsub_glob_match d [92, 42] ≠ GRes.matched) := by
  refine ⟨by decide, by decide, by decide, by decide, by decide, by decide,
    by decide, by decide, by decide, by decide, ?_⟩
  exact fun d hd => pubsub_glob_match_bs_only d hd

/-- Witness for C7: the pattern "\*" does not report a match on the one-byte
data "x". -/
theorem claim_C7_witness :
    pubsub_glob_match [120] [92, 42] ≠ GRes.matched :=
  claim_C7.2.2.2.2.2.2.2.2.2.2 [120] (by decide)

/-- C8: after deregistering the engine currently held in the default-engine
slot, the slot holds the cluster engine, and every subsequent publish that
names no explicit engine (with channel and message present) is routed to the
cluster engine's publish, which returns -1. -/
theorem claim_C8 (s : PState) (e : EngineRef) (ch m : Bytes)
    (hd : s.defaultEngine = some e) :
    (pubsub_engine_deregister e s).defaultEngine = some EngineRef.cluster ∧
      pubsub_publish none (some ch) (some m) (pubsub_engine_deregister e s) =
        .ok (PubOutcome.ret (-1), pubsub_engine_deregister e s) := by
  constructor
  · simp [pubsub_engine_deregister, hd]
  · simp [pubsub_publish, pubsub_engine_deregister, hd]

/-- Witness for C8: deregister the process engine while it is the default,
then publish to "a" without naming an engine. -/
theorem claim_C8_witness :
    (pubsub_engine_deregister EngineRef.process demoDefaultState).defaultEngine =
        some EngineRef.cluster ∧
      pubsub_publish none (some [97]) (some [104])
          (pubsub_engine_deregister EngineRef.process demoDefaultState) =
        .ok (PubOutcome.ret (-1),
          pubsub_engine_deregister EngineRef.process demoDefaultState) :=
  claim_C8 demoDefaultState EngineRef.process [97] [104] rfl

/-- C9: a subscribe whose channel name is absent or whose message callback is
absent returns no handle and leaves every registry collection and heap
unchanged (only the trace of synchronous external calls grows), and when an
unsubscribe-notification callback was supplied it is invoked synchronously,
with the call's two user-data slots, before subscribe returns. -/
theorem claim_C9 (chName : Option Bytes) (up : Bool) (om ou u1 u2 : Nat)
    (s : PState) (h : chName = none ∨ om = 0) :
    pubsub_subscribe chName up om ou u1 u2 s =
      .ok (none,
        { s with
          events := s.events ++
            (Event.errPrint ::
              (if ou ≠ 0 then [Event.unsubCallback ou u1 u2] else [])) }) := by
  rcases h with h | h <;> simp [pubsub_subscribe, pubsub_client_new, h]

/-- Witness for C9: a subscribe with no channel name and an
unsubscribe-notification callback 5 with user data 6 and 7. -/
theorem claim_C9_witness :
    pubsub_subscribe none true 0 5 6 7 initState =
      .ok (none,
        { initState with
          events := initState.events ++
            (Event.errPrint ::
              (if (5 : Nat) ≠ 0 then [Event.unsubCallback 5 6 7] else [])) }) :=
  claim_C9 none true 0 5 6 7 initState (Or.inl rfl)

/-- C10 (counterexample): the claim states that every buffer access of the
glob matcher is in bounds, in particular when the data is longer than the
pattern with no pending `*`.  On data "ab" and pattern "a" the loop consumes
the whole pattern with one data byte left and then reads the pattern one past
its end. -/
theorem claim_C10_counterexample :
    pubsub_glob_match [97, 98] [97] = GRes.oob := by
  decide

/-- C10 (amended): the out-of-range branch of the glob matcher is reachable —
when the data outlasts the fully consumed pattern with no pending `*`
(data "ab", pattern "a"), when the pattern ends with a trailing `\`
(data "x", pattern "\"), and when a `[` character class is unterminated
(data "a", pattern "[a"), the matcher reads a pattern byte at index pat_len;
the spec's well-formed example patterns stay in bounds (sample shown). -/
theorem claim_C10_theorem :
    pubsub_glob_match [97, 98] [97] = GRes.oob ∧
      pubsub_glob_match [120] [92] = GRes.oob ∧
      pubsub_glob_match [97] [91, 97] = GRes.oob ∧
      pubsub_glob_match [98, 120] [91, 97, 45, 99, 93, 120] = GRes.matched := by
  decide
